import Mathlib

/-!
Verification of the shell-exec reactor plugin (io-event-reactor-plugin-shell-exec).

The development shallowly embeds the plugin's two operations:

* the constructor (configuration validation and executor binding), and
* the reaction entry point `react(ioEvent)`,

together with models of the external collaborators they consume through
narrow interfaces: the Mustache templating engine (variable interpolation,
HTML escaping, empty output for missing keys, failure on an unclosed tag),
the IoEvent value from the io-event-reactor-plugin-support package (its
template-visible fields, as documented in the plugin's own header comment),
and the stateful-process-command-proxy executor (abstracted as a function
from a command batch to a fulfilled or rejected outcome).

JavaScript promise semantics are made explicit: a reaction produces the
ordered list of settle attempts (resolve or reject calls) it performs, and
the observable outcome of the returned promise is the first settle in that
list.  Exceptions in the constructor are modelled by the explicit
catch-and-report flow of the source.
-/

set_option maxRecDepth 4000

deriving instance DecidableEq for Except

/-- JavaScript error values are modelled as opaque strings (the code never
inspects an error beyond stringifying it into a message). -/
abbrev JsError := String

/-- One per-command outcome object produced by the executor collaborator. -/
structure CmdResult where
  command : String
  stdout : String
  stderr : String
  deriving DecidableEq

/-- Model of the IoEvent value (from io-event-reactor-plugin-support) that the
owning pipeline passes to react().  Stored fields follow the support package;
the path-derived fields (filename, parentPath, parentName) are exposed as
derived accessors below, per the plugin header comment that documents them as
available template variables. -/
structure IoEvent where
  uuid : String
  eventType : String
  fullPath : String
  optionalFsStats : Option String
  optionalExtraInfo : Option String
  deriving DecidableEq

/-- Characters of the basename of a path: the run after the last slash. -/
def basenameChars : List Char → List Char → List Char
  | [], acc => acc.reverse
  | '/' :: rest, _ => basenameChars rest []
  | c :: rest, acc => basenameChars rest (c :: acc)

/-- Basename of a slash-separated path. -/
def basenameOf (p : String) : String := String.mk (basenameChars p.data [])

/-- Directory part of a slash-separated path (everything before the last slash). -/
def parentPathOf (p : String) : String :=
  String.mk (((p.data.reverse.dropWhile (fun c => c ≠ '/')).drop 1).reverse)

/-- Basename of the directory part of a path. -/
def parentNameOf (p : String) : String := basenameOf (parentPathOf p)

/-- Derived accessor: filename (basename) of the event's path. -/
def IoEvent.filename (e : IoEvent) : String := basenameOf e.fullPath

/-- Derived accessor: directory containing the event's path. -/
def IoEvent.parentPath (e : IoEvent) : String := parentPathOf e.fullPath

/-- Derived accessor: name of the directory containing the event's path. -/
def IoEvent.parentName (e : IoEvent) : String := parentNameOf e.fullPath

/-- The result value with which every reaction settles, mirroring the
ReactorResult class: constructor order (success, pluginId, reactorId,
ioEvent, message, error). -/
structure ReactorResult where
  success : Bool
  pluginId : String
  reactorId : String
  ioEvent : IoEvent
  message : String
  error : Option JsError
  deriving DecidableEq

/-- Whether a settle attempt was a resolve or a reject call. -/
inductive SettleKind where
  | resolved
  | rejected
  deriving DecidableEq

/-- One settle attempt performed by a reaction on its returned promise. -/
structure Settle where
  kind : SettleKind
  result : ReactorResult
  deriving DecidableEq

/-- Promise semantics: only the first settle attempt is observable to the
caller of react(); later resolve and reject calls are ignored. -/
def promiseOutcome (settles : List Settle) : Option Settle := settles.head?

/-- A Mustache context value: a string, or an object with named fields. -/
inductive CtxVal where
  | str (s : String)
  | obj (fields : List (String × CtxVal))

/-- Field lookup in a Mustache context object. -/
def lookupKey : List (String × CtxVal) → String → Option CtxVal
  | [], _ => none
  | (k, v) :: rest, key => if k = key then some v else lookupKey rest key

/-- Resolution of a dotted name against a context value, one segment at a
time; any missing segment makes the whole lookup miss. -/
def resolvePath : CtxVal → List String → Option CtxVal
  | v, [] => some v
  | CtxVal.obj fs, k :: ks =>
    match lookupKey fs k with
    | some v => resolvePath v ks
    | none => none
  | CtxVal.str _, _ :: _ => none

/-- HTML escaping applied by Mustache to interpolated values. -/
def escapeChar : Char → String
  | '&' => "&amp;"
  | '<' => "&lt;"
  | '>' => "&gt;"
  | '\"' => "&quot;"
  | '\'' => "&#39;"
  | '/' => "&#x2F;"
  | c => String.singleton c

/-- HTML-escape a whole string, character by character. -/
def escapeHtml (s : String) : String :=
  s.data.foldl (fun acc c => acc ++ escapeChar c) ""

/-- Strip surrounding spaces from a tag name. -/
def trimSpaces (l : List Char) : List Char :=
  ((l.dropWhile (fun c => c = ' ')).reverse.dropWhile (fun c => c = ' ')).reverse

/-- Split a tag name on dots into its path segments. -/
def splitPathAux : List Char → List Char → List String
  | [], acc => [String.mk acc.reverse]
  | '.' :: rest, acc => String.mk acc.reverse :: splitPathAux rest []
  | c :: rest, acc => splitPathAux rest (c :: acc)

/-- Interpolate one tag against the context: resolve the dotted name and
HTML-escape the resulting string; a missing name or an object value renders
as the empty string (standard Mustache behaviour). -/
def interpolateTag (ctx : CtxVal) (tag : List Char) : String :=
  match resolvePath ctx (splitPathAux (trimSpaces tag) []) with
  | some (CtxVal.str s) => escapeHtml s
  | some (CtxVal.obj _) => ""
  | none => ""

/-- Model of Mustache variable interpolation.  The second argument carries
the accumulated (reversed) tag characters while scanning inside a tag.  An
opening double brace without its closing counterpart raises, as the real
engine does on a malformed template. -/
def renderLoop : List Char → Option (List Char) → CtxVal → Except JsError String
  | [], none, _ => Except.ok ""
  | [], some _, _ => Except.error "Unclosed tag"
  | '\x7b' :: '\x7b' :: rest, none, ctx => renderLoop rest (some []) ctx
  | '\x7d' :: '\x7d' :: rest, some acc, ctx =>
    (renderLoop rest none ctx).map (fun tail => interpolateTag ctx acc.reverse ++ tail)
  | c :: rest, some acc, ctx => renderLoop rest (some (c :: acc)) ctx
  | c :: rest, none, ctx =>
    (renderLoop rest none ctx).map (fun tail => String.singleton c ++ tail)

/-- Model of the external templating engine's render(template, context). -/
def mustacheRender (template : String) (ctx : CtxVal) : Except JsError String :=
  renderLoop template.data none ctx

/-- The template-visible view of an IoEvent, per the plugin's header comment:
uuid, eventType, fullPath, parentPath, parentName and filename.  The two
optional object-valued fields are omitted from the view; interpolating an
object value yields the empty string in this model either way. -/
def ioEventCtxVal (e : IoEvent) : CtxVal :=
  CtxVal.obj [("uuid", CtxVal.str e.uuid),
              ("eventType", CtxVal.str e.eventType),
              ("fullPath", CtxVal.str e.fullPath),
              ("parentPath", CtxVal.str e.parentPath),
              ("parentName", CtxVal.str e.parentName),
              ("filename", CtxVal.str e.filename)]

/-- The executor collaborator (stateful-process-command-proxy instance),
abstracted to its executeCommands interface: a command batch is either
fulfilled with per-command results or rejected with an error. -/
abbrev Executor := List String → Except JsError (List CmdResult)

/-- The reactor state bound by the constructor and read by react(). -/
structure PluginState where
  pluginId : String
  reactorId : String
  commandTemplates : Option (List String)
  commandGenerator : Option (IoEvent → Except JsError (List String))
  proxy : Executor

/-- Message of the reject issued when a template fails to render. -/
def tmplFailMsg (template : String) (e : JsError) : String :=
  "Error generating command from mustache template: " ++ template ++ " " ++ e

/-- Message of the reject issued when the generator function throws. -/
def genFailMsg (e : JsError) : String :=
  "Error generating command from command generator function: " ++ e

/-- Message of the reject issued when the executor rejects the batch. -/
def execFailMsg (e : JsError) : String :=
  "Error executing commands: " ++ e

/-- The failed ReactorResult built at every reject site of react(). -/
def mkFailResult (p : PluginState) (ev : IoEvent) (msg : String) (e : JsError) : ReactorResult :=
  { success := false, pluginId := p.pluginId, reactorId := p.reactorId,
    ioEvent := ev, message := msg, error := some e }

/-- The successful ReactorResult built when the executor fulfills. -/
def execOkResult (p : PluginState) (ev : IoEvent) : ReactorResult :=
  { success := true, pluginId := p.pluginId, reactorId := p.reactorId,
    ioEvent := ev, message := "Executed commands successfully", error := none }

/-- The template loop of react(): each template is rendered in order; a
truthy (non-empty) rendering is pushed onto the command list; a render
failure performs a reject call on the promise and the loop continues with
the next template (the source has no early return at the reject site). -/
def templatesLoop (p : PluginState) (ev : IoEvent)
    (render : String → Except JsError String) :
    List String → List String × List Settle
  | [] => ([], [])
  | t :: rest =>
    match render t with
    | Except.ok c =>
      let r := templatesLoop p ev render rest
      (if c = "" then r.1 else c :: r.1, r.2)
    | Except.error e =>
      let r := templatesLoop p ev render rest
      (r.1, { kind := SettleKind.rejected,
              result := mkFailResult p ev (tmplFailMsg t e) e } :: r.2)

/-- Phase 1 of react(): the template loop runs only when a template list is
configured and non-empty, mirroring the truthiness-and-length guard. -/
def tmplPhase (p : PluginState) (ev : IoEvent)
    (render : String → Except JsError String) : List String × List Settle :=
  match p.commandTemplates with
  | some ts => if 0 < ts.length then templatesLoop p ev render ts else ([], [])
  | none => ([], [])

/-- Phase 2 of react(): when a generator function is configured it is
invoked with the event; a non-empty returned array is concatenated after the
template commands; a throw performs a reject call and execution continues. -/
def genPhase (p : PluginState) (ev : IoEvent) (tCmds : List String) :
    List String × List Settle :=
  match p.commandGenerator with
  | some g =>
    match g ev with
    | Except.ok gcmds =>
      (if 0 < gcmds.length then tCmds ++ gcmds else tCmds, [])
    | Except.error e =>
      (tCmds, [{ kind := SettleKind.rejected,
                 result := mkFailResult p ev (genFailMsg e) e }])
  | none => (tCmds, [])

/-- The info log line produced for each command outcome on the success path. -/
def cmdResultLogMsg (r : CmdResult) : String :=
  "CmdResult: cmd: " ++ r.command ++ " stdout:" ++ r.stdout ++ " stderr:" ++ r.stderr

/-- Phase 3 of react(): the collected batch is handed to the executor; its
fulfillment resolves with a successful result (after logging each command
outcome), its rejection rejects with a failed result. -/
def execPhase (p : PluginState) (ev : IoEvent) (cmds : List String) :
    List (String × String) × Settle :=
  match p.proxy cmds with
  | Except.ok results =>
    (results.map (fun r => ("info", cmdResultLogMsg r)),
     { kind := SettleKind.resolved, result := execOkResult p ev })
  | Except.error e =>
    ([], { kind := SettleKind.rejected,
           result := mkFailResult p ev (execFailMsg e) e })

/-- The entry log line of react(). -/
def reactEntryLog (p : PluginState) (ev : IoEvent) : String × String :=
  ("info", "REACT[" ++ p.pluginId ++ "]() invoked: " ++ ev.eventType ++
   " for: " ++ ev.fullPath)

/-- Everything one react() call makes observable: its log calls, the ordered
settle attempts on the returned promise (synchronous rejects from the two
collection phases first, the executor's asynchronous settle last), and the
batches submitted to the executor. -/
structure ReactOutcome where
  logs : List (String × String)
  settles : List Settle
  submissions : List (List String)

/-- The Mustache context built by react() for every template: a single
top-level binding of the key ioEvent to the event object. -/
def reactCtx (toVal : IoEvent → CtxVal) (ev : IoEvent) : CtxVal :=
  CtxVal.obj [("ioEvent", toVal ev)]

/-- Shallow embedding of react(ioEvent).  It is parameterised by the
external templating engine and by the context view of the event object, so
theorems can quantify over engine behaviour; the executor is part of the
bound state.  The source always reaches the executeCommands call (no reject
site returns early), so exactly one batch is always submitted. -/
def react (p : PluginState) (mustache : String → CtxVal → Except JsError String)
    (toVal : IoEvent → CtxVal) (ev : IoEvent) : ReactOutcome :=
  let render := fun t => mustache t (reactCtx toVal ev)
  let tP := tmplPhase p ev render
  let gP := genPhase p ev tP.1
  let xP := execPhase p ev gP.1
  { logs := reactEntryLog p ev :: xP.1,
    settles := tP.2 ++ gP.2 ++ [xP.2],
    submissions := [gP.1] }

/-- Opaque configuration object for constructing a new executor instance. -/
abbrev ProxyConfig := String

/-- The statefulProcessCommandProxy block of the plugin configuration: it is
expected to carry either a construction config or an existing instance. -/
structure SpcpBlock where
  config : Option ProxyConfig
  inst : Option Executor

/-- The pluginConfig argument of the constructor.  The outer block itself
may be absent (field access on it then raises a TypeError); the generator
entry models the typeof-function guard; the templates entry models the
defined-and-non-null guard. -/
structure PluginConfig where
  statefulProcessCommandProxy : Option SpcpBlock
  commandGenerator : Option (IoEvent → Except JsError (List String))
  commandTemplates : Option (List String)

/-- The class name used in log origins and error messages. -/
def ctorName : String := "ShellExecReactorPlugin"

/-- The stringified Error thrown when the proxy block has neither entry. -/
def spcpMissingErr : String :=
  "Error: pluginConfig.statefulProcessCommandProxy must contain either 'instance' or 'config'"

/-- The stringified TypeError raised when the proxy block itself is absent. -/
def spcpUndefinedErr : String :=
  "TypeError: Cannot read property 'config' of undefined"

/-- Error message emitted by the constructor's outer catch. -/
def unexpectedErrMsg (pid rid : String) (e : JsError) : String :=
  ctorName ++ "[" ++ rid ++ "][" ++ pid ++ "] unexpected error: " ++ e

/-- Error message emitted when constructing a new executor throws. -/
def proxyCtorErrMsg (pid rid : String) (e : JsError) : String :=
  ctorName ++ "[" ++ rid ++ "][" ++ pid ++ "] error constructing StatefulProcessCommandProxy: " ++ e

/-- Everything the constructor makes observable to its owner: log calls,
error-callback calls (message and error), initialized-callback calls, the
bound state fields, and whether an exception escaped the constructor
(always none: the outer catch handles every throw). -/
structure CtorOutcome where
  logs : List (String × String)
  errorCalls : List (String × JsError)
  initCalls : List String
  proxy : Option Executor
  commandGenerator : Option (IoEvent → Except JsError (List String))
  commandTemplates : Option (List String)
  threw : Option JsError

/-- The straight-line tail of the constructor after executor binding: the
generator is bound when it is a function, the template list is bound when
present, and the initialized callback fires only inside the template branch
(the construction-time dry-run renders run asynchronously after the
constructor returns and are therefore not part of this outcome). -/
def ctorRest (pid : String) (cfg : PluginConfig) (proxy : Option Executor)
    (logs0 : List (String × String)) (errs0 : List (String × JsError)) : CtorOutcome :=
  { logs := logs0, errorCalls := errs0,
    initCalls := match cfg.commandTemplates with | some _ => [pid] | none => [],
    proxy := proxy,
    commandGenerator := cfg.commandGenerator,
    commandTemplates := cfg.commandTemplates,
    threw := none }

/-- The outcome of the constructor's outer catch: the exception is logged,
reported through the error callback, and not re-thrown; none of the later
binding steps have run. -/
def ctorCaught (pid rid : String) (e : JsError) : CtorOutcome :=
  { logs := [("error", unexpectedErrMsg pid rid e)],
    errorCalls := [(unexpectedErrMsg pid rid e, e)],
    initCalls := [], proxy := none,
    commandGenerator := none, commandTemplates := none, threw := none }

/-- Shallow embedding of the constructor, parameterised by the external
StatefulProcessCommandProxy constructor (which may throw).  A config entry
takes priority and builds a new owned executor (a construction throw is
caught, reported, and binding continues); otherwise an instance entry is
bound as-is; with neither, the thrown Error reaches the outer catch. -/
def ctorModel (pid rid : String) (mkProxy : ProxyConfig → Except JsError Executor)
    (cfg : PluginConfig) : CtorOutcome :=
  match cfg.statefulProcessCommandProxy with
  | none => ctorCaught pid rid spcpUndefinedErr
  | some blk =>
    match blk.config with
    | some pc =>
      match mkProxy pc with
      | Except.ok px => ctorRest pid cfg (some px) [] []
      | Except.error e =>
        ctorRest pid cfg none [("error", proxyCtorErrMsg pid rid e)]
          [(proxyCtorErrMsg pid rid e, e)]
    | none =>
      match blk.inst with
      | some i => ctorRest pid cfg (some i) [] []
      | none => ctorCaught pid rid spcpMissingErr

/-- An executor that accepts any batch, echoing each command with empty
output streams. -/
def okProxy : Executor :=
  fun cmds => Except.ok (cmds.map (fun c => { command := c, stdout := "", stderr := "" }))

/-- An external proxy constructor that always succeeds with okProxy. -/
def mkProxy0 : ProxyConfig → Except JsError Executor :=
  fun _ => Except.ok okProxy

/-- The commands collected by the template loop: the truthy (non-empty)
outputs of the templates that render without error, in configuration order. -/
def okCmds (render : String → Except JsError String) : List String → List String
  | [] => []
  | t :: rest =>
    match render t with
    | Except.ok c => if c = "" then okCmds render rest else c :: okCmds render rest
    | Except.error _ => okCmds render rest

/-- The reject calls performed by the template loop, one per failing
template, in configuration order. -/
def tmplSettles (p : PluginState) (ev : IoEvent)
    (render : String → Except JsError String) : List String → List Settle
  | [] => []
  | t :: rest =>
    match render t with
    | Except.ok _ => tmplSettles p ev render rest
    | Except.error e =>
      { kind := SettleKind.rejected,
        result := mkFailResult p ev (tmplFailMsg t e) e } :: tmplSettles p ev render rest

theorem templatesLoop_eq (p : PluginState) (ev : IoEvent)
    (render : String → Except JsError String) (ts : List String) :
    templatesLoop p ev render ts = (okCmds render ts, tmplSettles p ev render ts) := by
  induction ts with
  | nil => rfl
  | cons t rest ih =>
    cases h : render t with
    | ok c => by_cases hc : c = "" <;> simp [templatesLoop, okCmds, tmplSettles, h, hc, ih]
    | error e => simp [templatesLoop, okCmds, tmplSettles, h, ih]

theorem tmplPhase_some (p : PluginState) (ev : IoEvent)
    (render : String → Except JsError String) (ts : List String)
    (h : p.commandTemplates = some ts) :
    tmplPhase p ev render = (okCmds render ts, tmplSettles p ev render ts) := by
  cases ts with
  | nil => simp [tmplPhase, h, okCmds, tmplSettles]
  | cons t rest => simp [tmplPhase, h, templatesLoop_eq]

theorem tmplPhase_none (p : PluginState) (ev : IoEvent)
    (render : String → Except JsError String)
    (h : p.commandTemplates = none) :
    tmplPhase p ev render = ([], []) := by
  simp [tmplPhase, h]

theorem okCmds_append (render : String → Except JsError String) (a b : List String) :
    okCmds render (a ++ b) = okCmds render a ++ okCmds render b := by
  induction a with
  | nil => rfl
  | cons t rest ih =>
    cases h : render t with
    | ok c => by_cases hc : c = "" <;> simp [okCmds, h, hc, ih]
    | error e => simp [okCmds, h, ih]

theorem tmplSettles_append (p : PluginState) (ev : IoEvent)
    (render : String → Except JsError String) (a b : List String) :
    tmplSettles p ev render (a ++ b) =
      tmplSettles p ev render a ++ tmplSettles p ev render b := by
  induction a with
  | nil => rfl
  | cons t rest ih =>
    cases h : render t with
    | ok c => simp [tmplSettles, h, ih]
    | error e => simp [tmplSettles, h, ih]

theorem tmplSettles_nil_of_ok (p : PluginState) (ev : IoEvent)
    (render : String → Except JsError String) (ts : List String)
    (h : ∀ t ∈ ts, (render t).isOk = true) :
    tmplSettles p ev render ts = [] := by
  induction ts with
  | nil => rfl
  | cons t rest ih =>
    have ht := h t (by simp)
    cases hr : render t with
    | ok c => exact by simp [tmplSettles, hr, ih (fun x hx => h x (by simp [hx]))]
    | error e => simp [Except.isOk, Except.toBool, hr] at ht

theorem okCmds_forall₂ (render : String → Except JsError String)
    (ts cs : List String)
    (h : List.Forall₂ (fun t c => render t = Except.ok c) ts cs) :
    okCmds render ts = cs.filter (fun c => c != "") := by
  induction h with
  | nil => rfl
  | cons hd _ ih =>
    rename_i t c ts' cs' _
    by_cases hc : c = "" <;> simp [okCmds, hd, hc, ih, List.filter_cons]

theorem tmplSettles_forall₂ (p : PluginState) (ev : IoEvent)
    (render : String → Except JsError String) (ts cs : List String)
    (h : List.Forall₂ (fun t c => render t = Except.ok c) ts cs) :
    tmplSettles p ev render ts = [] := by
  induction h with
  | nil => rfl
  | cons hd _ ih => rename_i t c ts' cs' _; simp [tmplSettles, hd, ih]

theorem okCmds_all_empty (render : String → Except JsError String) (ts : List String)
    (h : ∀ t ∈ ts, render t = Except.ok "") :
    okCmds render ts = [] := by
  induction ts with
  | nil => rfl
  | cons t rest ih =>
    simp [okCmds, h t (by simp), ih (fun x hx => h x (by simp [hx]))]

theorem ioEvent_of_mem_tmplSettles (p : PluginState) (ev : IoEvent)
    (render : String → Except JsError String) (ts : List String) (s : Settle)
    (h : s ∈ tmplSettles p ev render ts) : s.result.ioEvent = ev := by
  induction ts with
  | nil => simp [tmplSettles] at h
  | cons t rest ih =>
    cases hr : render t with
    | ok c =>
      rw [tmplSettles, hr] at h
      exact ih h
    | error e =>
      rw [tmplSettles, hr] at h
      rcases List.mem_cons.mp h with h1 | h1
      · simp [h1, mkFailResult]
      · exact ih h1

theorem mem_tmplSettles_of_error (p : PluginState) (ev : IoEvent)
    (render : String → Except JsError String) (ts : List String) (t : String)
    (e : JsError) (hmem : t ∈ ts) (herr : render t = Except.error e) :
    ({ kind := SettleKind.rejected,
       result := mkFailResult p ev (tmplFailMsg t e) e } : Settle) ∈
      tmplSettles p ev render ts := by
  induction ts with
  | nil => simp at hmem
  | cons hd rest ih =>
    rcases List.mem_cons.mp hmem with h | h
    · subst h
      rw [tmplSettles, herr]
      exact List.mem_cons_self _ _
    · cases hr : render hd with
      | ok c => rw [tmplSettles, hr]; exact ih h
      | error e2 => rw [tmplSettles, hr]; exact List.mem_cons_of_mem _ (ih h)

theorem genPhase_some_ok (p : PluginState) (ev : IoEvent) (tCmds : List String)
    (g : IoEvent → Except JsError (List String)) (gcmds : List String)
    (hg : p.commandGenerator = some g) (hge : g ev = Except.ok gcmds) :
    genPhase p ev tCmds = (tCmds ++ gcmds, []) := by
  cases gcmds with
  | nil => simp [genPhase, hg, hge]
  | cons c rest => simp [genPhase, hg, hge]

theorem genPhase_some_error (p : PluginState) (ev : IoEvent) (tCmds : List String)
    (g : IoEvent → Except JsError (List String)) (e : JsError)
    (hg : p.commandGenerator = some g) (hge : g ev = Except.error e) :
    genPhase p ev tCmds =
      (tCmds, [{ kind := SettleKind.rejected,
                 result := mkFailResult p ev (genFailMsg e) e }]) := by
  simp [genPhase, hg, hge]

theorem genPhase_none (p : PluginState) (ev : IoEvent) (tCmds : List String)
    (hg : p.commandGenerator = none) : genPhase p ev tCmds = (tCmds, []) := by
  simp [genPhase, hg]

theorem ioEvent_of_mem_genPhase (p : PluginState) (ev : IoEvent)
    (tCmds : List String) (s : Settle) (h : s ∈ (genPhase p ev tCmds).2) :
    s.result.ioEvent = ev := by
  cases hg : p.commandGenerator with
  | none => rw [genPhase_none p ev tCmds hg] at h; simp at h
  | some g =>
    cases hge : g ev with
    | ok gcmds =>
      rw [genPhase_some_ok p ev tCmds g gcmds hg hge] at h
      simp at h
    | error e =>
      rw [genPhase_some_error p ev tCmds g e hg hge] at h
      simp at h
      simp [h, mkFailResult]

theorem ioEvent_of_execPhase (p : PluginState) (ev : IoEvent) (cmds : List String) :
    (execPhase p ev cmds).2.result.ioEvent = ev := by
  unfold execPhase
  cases p.proxy cmds with
  | ok results => simp [execOkResult]
  | error e => simp [mkFailResult]

theorem react_settles_def (p : PluginState)
    (mustache : String → CtxVal → Except JsError String)
    (toVal : IoEvent → CtxVal) (ev : IoEvent) :
    (react p mustache toVal ev).settles =
      (tmplPhase p ev (fun t => mustache t (reactCtx toVal ev))).2 ++
      (genPhase p ev (tmplPhase p ev (fun t => mustache t (reactCtx toVal ev))).1).2 ++
      [(execPhase p ev
        (genPhase p ev (tmplPhase p ev (fun t => mustache t (reactCtx toVal ev))).1).1).2] := rfl

theorem react_submissions_def (p : PluginState)
    (mustache : String → CtxVal → Except JsError String)
    (toVal : IoEvent → CtxVal) (ev : IoEvent) :
    (react p mustache toVal ev).submissions =
      [(genPhase p ev (tmplPhase p ev (fun t => mustache t (reactCtx toVal ev))).1).1] := rfl

/-- C2: for every event and every behaviour of the external templating
engine, generator and executor, react() never throws synchronously (it is a
total function producing a settle trace), the returned promise is settled
(the settle trace is non-empty, so exactly one Result is observable under
first-settle-wins promise semantics), and every settle attempt — in
particular the observable one — carries a Result whose ioEvent field is the
input event, on both the success and the failure path. -/
theorem react_settles_exactly_once_with_input_event (p : PluginState)
    (mustache : String → CtxVal → Except JsError String)
    (toVal : IoEvent → CtxVal) (ev : IoEvent) :
    (∃ s, promiseOutcome (react p mustache toVal ev).settles = some s) ∧
    ∀ s ∈ (react p mustache toVal ev).settles, s.result.ioEvent = ev := by
  constructor
  · have hne : (react p mustache toVal ev).settles ≠ [] := by
      rw [react_settles_def]; simp
    cases hl : (react p mustache toVal ev).settles with
    | nil => exact absurd hl hne
    | cons a l => exact ⟨a, by simp [promiseOutcome, hl]⟩
  · intro s hs
    rw [react_settles_def] at hs
    rcases List.mem_append.mp hs with h1 | h1
    · rcases List.mem_append.mp h1 with h2 | h2
      · rcases hl : p.commandTemplates with _ | ts
        · rw [tmplPhase_none p ev _ hl] at h2; simp at h2
        · rw [tmplPhase_some p ev _ ts hl] at h2
          exact ioEvent_of_mem_tmplSettles p ev _ ts s h2
      · exact ioEvent_of_mem_genPhase p ev _ s h2
    · rw [List.mem_singleton.mp h1]
      exact ioEvent_of_execPhase p ev _

def ev1 : IoEvent :=
  { uuid := "u1", eventType := "add", fullPath := "/watched/f.txt",
    optionalFsStats := none, optionalExtraInfo := none }

def st1 : PluginState :=
  { pluginId := "p1", reactorId := "r1",
    commandTemplates := some ["\x7b\x7b", "echo hi"],
    commandGenerator := some (fun _ => Except.ok ["gen1"]),
    proxy := okProxy }

/-- C1 counterexample: with the malformed first template the render fails,
yet the reaction still renders the remaining template, still invokes the
generator, and still submits the collected batch to the executor — the
claim's no-submission and no-further-application parts are false at this
input (the observable Result is indeed the failed one for the first
template). -/
theorem react_render_error_counterexample :
    (mustacheRender "\x7b\x7b" (reactCtx ioEventCtxVal ev1)).isOk = false ∧
    (react st1 mustacheRender ioEventCtxVal ev1).submissions = [["echo hi", "gen1"]] ∧
    promiseOutcome (react st1 mustacheRender ioEventCtxVal ev1).settles =
      some { kind := SettleKind.rejected,
             result := mkFailResult st1 ev1 (tmplFailMsg "\x7b\x7b" "Unclosed tag") "Unclosed tag" } :=
  ⟨rfl, by decide, by decide⟩

/-- C1 (amended): when a configured template fails to render against the
event (all templates before it rendering without error), react() settles
with a failed Result carrying that render error; however the reaction does
not abort: the remaining templates and the generator are still applied and
the executor is still handed exactly one command batch. -/
theorem react_render_error_rejects_but_still_submits (p : PluginState)
    (mustache : String → CtxVal → Except JsError String)
    (toVal : IoEvent → CtxVal) (ev : IoEvent)
    (pre post : List String) (t : String) (e : JsError)
    (hts : p.commandTemplates = some (pre ++ t :: post))
    (hpre : ∀ t2 ∈ pre, (mustache t2 (reactCtx toVal ev)).isOk = true)
    (hfail : mustache t (reactCtx toVal ev) = Except.error e) :
    promiseOutcome (react p mustache toVal ev).settles =
      some { kind := SettleKind.rejected,
             result := mkFailResult p ev (tmplFailMsg t e) e } ∧
    (react p mustache toVal ev).submissions.length = 1 := by
  have hsett : (tmplPhase p ev (fun t2 => mustache t2 (reactCtx toVal ev))).2 =
      { kind := SettleKind.rejected,
        result := mkFailResult p ev (tmplFailMsg t e) e } ::
        tmplSettles p ev (fun t2 => mustache t2 (reactCtx toVal ev)) post := by
    rw [tmplPhase_some p ev _ _ hts, tmplSettles_append,
        tmplSettles_nil_of_ok p ev _ pre hpre]
    simp only [List.nil_append, tmplSettles, hfail]
  constructor
  · rw [promiseOutcome, react_settles_def, hsett]
    simp
  · rw [react_submissions_def]
    rfl

def st1w : PluginState :=
  { pluginId := "p1", reactorId := "r1",
    commandTemplates := some ["echo pre", "\x7b\x7b", "echo hi"],
    commandGenerator := some (fun _ => Except.ok ["gen1"]),
    proxy := okProxy }

/-- C1 witness: the amended theorem applied at a concrete reactor whose
second template is malformed. -/
theorem react_render_error_rejects_but_still_submits_witness :
    (∀ t2 ∈ (["echo pre"] : List String),
       (mustacheRender t2 (reactCtx ioEventCtxVal ev1)).isOk = true) ∧
    mustacheRender "\x7b\x7b" (reactCtx ioEventCtxVal ev1) = Except.error "Unclosed tag" ∧
    (promiseOutcome (react st1w mustacheRender ioEventCtxVal ev1).settles =
       some { kind := SettleKind.rejected,
              result := mkFailResult st1w ev1 (tmplFailMsg "\x7b\x7b" "Unclosed tag") "Unclosed tag" } ∧
     (react st1w mustacheRender ioEventCtxVal ev1).submissions.length = 1) :=
  ⟨by decide, by rfl,
   react_render_error_rejects_but_still_submits st1w mustacheRender ioEventCtxVal ev1
     ["echo pre"] ["echo hi"] "\x7b\x7b" "Unclosed tag" (by rfl) (by decide) (by rfl)⟩

/-- C10: under first-settle-wins promise semantics each react() call has at
most one observable outcome; when several templates fail to render in one
reaction, the observable Result is the failed Result of the first failing
template in configuration order, even though the settle trace records the
later failure too and the batch of collected commands is still submitted to
the executor. -/
theorem react_observable_is_first_settle_despite_later_failures (p : PluginState)
    (mustache : String → CtxVal → Except JsError String)
    (toVal : IoEvent → CtxVal) (ev : IoEvent)
    (pre mid post : List String) (t1 t2 : String) (e1 e2 : JsError)
    (hts : p.commandTemplates = some (pre ++ t1 :: (mid ++ t2 :: post)))
    (hpre : ∀ t ∈ pre, (mustache t (reactCtx toVal ev)).isOk = true)
    (h1 : mustache t1 (reactCtx toVal ev) = Except.error e1)
    (h2 : mustache t2 (reactCtx toVal ev) = Except.error e2) :
    promiseOutcome (react p mustache toVal ev).settles =
      some { kind := SettleKind.rejected,
             result := mkFailResult p ev (tmplFailMsg t1 e1) e1 } ∧
    ({ kind := SettleKind.rejected,
       result := mkFailResult p ev (tmplFailMsg t2 e2) e2 } : Settle) ∈
      (react p mustache toVal ev).settles ∧
    (react p mustache toVal ev).submissions.length = 1 := by
  have hsett : (tmplPhase p ev (fun t3 => mustache t3 (reactCtx toVal ev))).2 =
      { kind := SettleKind.rejected,
        result := mkFailResult p ev (tmplFailMsg t1 e1) e1 } ::
        tmplSettles p ev (fun t3 => mustache t3 (reactCtx toVal ev)) (mid ++ t2 :: post) := by
    rw [tmplPhase_some p ev _ _ hts, tmplSettles_append,
        tmplSettles_nil_of_ok p ev _ pre hpre]
    simp only [List.nil_append, tmplSettles, h1]
  refine ⟨?_, ?_, ?_⟩
  · rw [promiseOutcome, react_settles_def, hsett]
    simp
  · rw [react_settles_def]
    refine List.mem_append_left _ (List.mem_append_left _ ?_)
    rw [hsett]
    refine List.mem_cons_of_mem _ ?_
    exact mem_tmplSettles_of_error p ev _ (mid ++ t2 :: post) t2 e2 (by simp) h2
  · rw [react_submissions_def]
    rfl

def st10 : PluginState :=
  { pluginId := "p10", reactorId := "r10",
    commandTemplates := some ["echo pre", "\x7b\x7b", "echo mid", "\x7b\x7bz"],
    commandGenerator := none,
    proxy := okProxy }

/-- C10 witness: the theorem applied at a concrete reactor with two
malformed templates. -/
theorem react_observable_is_first_settle_witness :
    mustacheRender "\x7b\x7b" (reactCtx ioEventCtxVal ev1) = Except.error "Unclosed tag" ∧
    mustacheRender "\x7b\x7bz" (reactCtx ioEventCtxVal ev1) = Except.error "Unclosed tag" ∧
    (promiseOutcome (react st10 mustacheRender ioEventCtxVal ev1).settles =
       some { kind := SettleKind.rejected,
              result := mkFailResult st10 ev1 (tmplFailMsg "\x7b\x7b" "Unclosed tag") "Unclosed tag" } ∧
     ({ kind := SettleKind.rejected,
        result := mkFailResult st10 ev1 (tmplFailMsg "\x7b\x7bz" "Unclosed tag") "Unclosed tag" } : Settle) ∈
       (react st10 mustacheRender ioEventCtxVal ev1).settles ∧
     (react st10 mustacheRender ioEventCtxVal ev1).submissions.length = 1) :=
  ⟨by rfl, by rfl,
   react_observable_is_first_settle_despite_later_failures st10 mustacheRender ioEventCtxVal ev1
     ["echo pre"] ["echo mid"] [] "\x7b\x7b" "\x7b\x7bz" "Unclosed tag" "Unclosed tag"
     (by rfl) (by decide) (by rfl) (by rfl)⟩

def st3 : PluginState :=
  { pluginId := "p3", reactorId := "r3",
    commandTemplates := some ["", "echo a"],
    commandGenerator := some (fun _ => Except.ok ["g"]),
    proxy := okProxy }

/-- C3 counterexample: both templates render without error (the first to
the empty string) and the generator succeeds, yet the executor batch is not
the rendered outputs followed by the generated commands: the falsy empty
rendering is dropped before submission. -/
theorem react_batch_drops_empty_render_counterexample :
    mustacheRender "" (reactCtx ioEventCtxVal ev1) = Except.ok "" ∧
    mustacheRender "echo a" (reactCtx ioEventCtxVal ev1) = Except.ok "echo a" ∧
    (react st3 mustacheRender ioEventCtxVal ev1).submissions = [["echo a", "g"]] ∧
    (react st3 mustacheRender ioEventCtxVal ev1).submissions ≠
      [[("" : String), "echo a", "g"]] :=
  ⟨by rfl, by rfl, by decide, by decide⟩

/-- C3 (amended): when every configured template renders without error and
the generator succeeds, the batch handed to the executor is the truthy
(non-empty) rendered outputs in configuration order followed by the
generator's returned commands in their returned order; templates rendering
to the empty string are omitted from the batch. -/
theorem react_batch_is_truthy_rendered_then_generated (p : PluginState)
    (mustache : String → CtxVal → Except JsError String)
    (toVal : IoEvent → CtxVal) (ev : IoEvent) (ts cs : List String)
    (g : IoEvent → Except JsError (List String)) (gcmds : List String)
    (hts : p.commandTemplates = some ts)
    (hcs : List.Forall₂ (fun t c => mustache t (reactCtx toVal ev) = Except.ok c) ts cs)
    (hg : p.commandGenerator = some g) (hgc : g ev = Except.ok gcmds) :
    (react p mustache toVal ev).submissions =
      [cs.filter (fun c => c != "") ++ gcmds] := by
  rw [react_submissions_def, tmplPhase_some p ev _ ts hts]
  rw [genPhase_some_ok p ev _ g gcmds hg hgc]
  rw [okCmds_forall₂ _ ts cs hcs]

/-- C3 witness: the amended theorem applied at the specification's own
example — one template rendering to cmdT and a generator returning cmdA and
cmdB yield exactly the batch cmdT, cmdA, cmdB. -/
theorem react_batch_is_truthy_rendered_then_generated_witness :
    (react { pluginId := "p3w", reactorId := "r3w",
             commandTemplates := some ["cmdT"],
             commandGenerator := some (fun _ => Except.ok ["cmdA", "cmdB"]),
             proxy := okProxy } mustacheRender ioEventCtxVal ev1).submissions =
      [(["cmdT"].filter (fun c => c != "")) ++ ["cmdA", "cmdB"]] :=
  react_batch_is_truthy_rendered_then_generated _ mustacheRender ioEventCtxVal ev1
    ["cmdT"] ["cmdT"] (fun _ => Except.ok ["cmdA", "cmdB"]) ["cmdA", "cmdB"]
    (by rfl) (List.Forall₂.cons (by rfl) List.Forall₂.nil) (by rfl) (by rfl)

def st4 : PluginState :=
  { pluginId := "p4", reactorId := "r4",
    commandTemplates := some ["echo t"],
    commandGenerator := some (fun _ => Except.error "boom"),
    proxy := okProxy }

/-- C4 counterexample: the sole template renders successfully, the
generator throws, and the observable Result is the failed generation
Result — yet the rendered command is still submitted to the executor,
refuting the claim's no-submission part at this input. -/
theorem react_generator_error_counterexample :
    mustacheRender "echo t" (reactCtx ioEventCtxVal ev1) = Except.ok "echo t" ∧
    (react st4 mustacheRender ioEventCtxVal ev1).submissions = [["echo t"]] ∧
    (react st4 mustacheRender ioEventCtxVal ev1).submissions ≠ [] ∧
    promiseOutcome (react st4 mustacheRender ioEventCtxVal ev1).settles =
      some { kind := SettleKind.rejected,
             result := mkFailResult st4 ev1 (genFailMsg "boom") "boom" } :=
  ⟨by rfl, by decide, by decide, by decide⟩

/-- C4 (amended): when the configured generator throws after every template
rendered successfully, react() settles with a failed Result carrying the
generation error; however the reaction does not abort: the successfully
rendered template commands are still submitted to the executor as the
batch. -/
theorem react_generator_error_rejects_but_submits_rendered (p : PluginState)
    (mustache : String → CtxVal → Except JsError String)
    (toVal : IoEvent → CtxVal) (ev : IoEvent) (ts cs : List String)
    (g : IoEvent → Except JsError (List String)) (e : JsError)
    (hts : p.commandTemplates = some ts)
    (hcs : List.Forall₂ (fun t c => mustache t (reactCtx toVal ev) = Except.ok c) ts cs)
    (hg : p.commandGenerator = some g) (hge : g ev = Except.error e) :
    promiseOutcome (react p mustache toVal ev).settles =
      some { kind := SettleKind.rejected,
             result := mkFailResult p ev (genFailMsg e) e } ∧
    (react p mustache toVal ev).submissions = [cs.filter (fun c => c != "")] := by
  constructor
  · rw [promiseOutcome, react_settles_def, tmplPhase_some p ev _ ts hts]
    rw [genPhase_some_error p ev _ g e hg hge]
    rw [tmplSettles_forall₂ p ev _ ts cs hcs]
    simp
  · rw [react_submissions_def, tmplPhase_some p ev _ ts hts]
    rw [genPhase_some_error p ev _ g e hg hge]
    rw [okCmds_forall₂ _ ts cs hcs]

/-- C4 witness: the amended theorem applied at a concrete reactor whose
generator throws after its template rendered. -/
theorem react_generator_error_rejects_but_submits_rendered_witness :
    promiseOutcome (react st4 mustacheRender ioEventCtxVal ev1).settles =
      some { kind := SettleKind.rejected,
             result := mkFailResult st4 ev1 (genFailMsg "boom") "boom" } ∧
    (react st4 mustacheRender ioEventCtxVal ev1).submissions =
      [["echo t"].filter (fun c => c != "")] :=
  react_generator_error_rejects_but_submits_rendered st4 mustacheRender ioEventCtxVal ev1
    ["echo t"] ["echo t"] (fun _ => Except.error "boom") "boom"
    (by rfl) (List.Forall₂.cons (by rfl) List.Forall₂.nil) (by rfl) (by rfl)

def ev5 : IoEvent :=
  { uuid := "u5", eventType := "add", fullPath := "/a/b/c.txt",
    optionalFsStats := none, optionalExtraInfo := none }

def st5 : PluginState :=
  { pluginId := "p5", reactorId := "r5",
    commandTemplates := some ["echo \x7b\x7bevent.filename\x7d\x7d"],
    commandGenerator := none,
    proxy := okProxy }

/-- C5 counterexample: the render context's single top-level key is
ioEvent, not event, so a template addressing event.filename interpolates to
the empty string: for the event at /a/b/c.txt the executor receives exactly
["echo "], not ["echo c.txt"]. -/
theorem react_event_namespace_counterexample :
    (react st5 mustacheRender ioEventCtxVal ev5).submissions = [["echo "]] ∧
    (react st5 mustacheRender ioEventCtxVal ev5).submissions ≠ [["echo c.txt"]] :=
  ⟨by decide, by decide⟩

def st5a : PluginState :=
  { pluginId := "p5", reactorId := "r5",
    commandTemplates := some ["echo \x7b\x7bioEvent.filename\x7d\x7d"],
    commandGenerator := none,
    proxy := okProxy }

/-- C5 (amended): the template renderer exposes the event's fields under
the single top-level context key ioEvent; a Reactor configured only with
the template echoing ioEvent.filename, reacting to an event whose fullPath
is /a/b/c.txt, submits exactly the batch ["echo c.txt"] to the executor and
resolves successfully. -/
theorem react_context_key_is_ioEvent_and_filename_batch :
    (∀ (toVal : IoEvent → CtxVal) (ev : IoEvent),
       reactCtx toVal ev = CtxVal.obj [("ioEvent", toVal ev)]) ∧
    (react st5a mustacheRender ioEventCtxVal ev5).submissions = [["echo c.txt"]] ∧
    promiseOutcome (react st5a mustacheRender ioEventCtxVal ev5).settles =
      some { kind := SettleKind.resolved, result := execOkResult st5a ev5 } :=
  ⟨fun _ _ => rfl, by decide, by decide⟩

/-- C9: when every configured template renders to the empty (falsy) string
and the generator returns an empty command array, the reaction submits the
empty batch to the executor, and when the executor accepts it the
observable Result is the successful one, not an error. -/
theorem react_empty_outputs_submit_empty_batch_successfully (p : PluginState)
    (mustache : String → CtxVal → Except JsError String)
    (toVal : IoEvent → CtxVal) (ev : IoEvent) (ts : List String)
    (g : IoEvent → Except JsError (List String)) (rs : List CmdResult)
    (hts : p.commandTemplates = some ts)
    (hall : ∀ t ∈ ts, mustache t (reactCtx toVal ev) = Except.ok "")
    (hg : p.commandGenerator = some g)
    (hge : g ev = Except.ok [])
    (hx : p.proxy [] = Except.ok rs) :
    (react p mustache toVal ev).submissions = [[]] ∧
    promiseOutcome (react p mustache toVal ev).settles =
      some { kind := SettleKind.resolved, result := execOkResult p ev } := by
  have hok : ∀ t ∈ ts, ((fun t2 => mustache t2 (reactCtx toVal ev)) t).isOk = true := by
    intro t ht
    simp only [hall t ht]
    rfl
  have hcmds : okCmds (fun t2 => mustache t2 (reactCtx toVal ev)) ts = [] :=
    okCmds_all_empty _ ts hall
  constructor
  · rw [react_submissions_def, tmplPhase_some p ev _ ts hts]
    rw [genPhase_some_ok p ev _ g [] hg hge]
    simp [hcmds]
  · rw [promiseOutcome, react_settles_def, tmplPhase_some p ev _ ts hts]
    rw [genPhase_some_ok p ev _ g [] hg hge]
    rw [tmplSettles_nil_of_ok p ev _ ts hok]
    have hexec : (execPhase p ev ((okCmds (fun t2 => mustache t2 (reactCtx toVal ev)) ts) ++ [])).2 =
        { kind := SettleKind.resolved, result := execOkResult p ev } := by
      rw [hcmds]
      unfold execPhase
      simp only [List.nil_append]
      rw [hx]
    rw [hexec]
    rfl

def st9 : PluginState :=
  { pluginId := "p9", reactorId := "r9",
    commandTemplates := some ["\x7b\x7bnope\x7d\x7d"],
    commandGenerator := some (fun _ => Except.ok []),
    proxy := okProxy }

/-- C9 witness: the theorem applied at a concrete reactor whose template
interpolates a missing key (rendering to the empty string) and whose
generator returns the empty array. -/
theorem react_empty_outputs_submit_empty_batch_successfully_witness :
    (∀ t ∈ (["\x7b\x7bnope\x7d\x7d"] : List String),
       mustacheRender t (reactCtx ioEventCtxVal ev1) = Except.ok "") ∧
    okProxy [] = Except.ok [] ∧
    ((react st9 mustacheRender ioEventCtxVal ev1).submissions = [[]] ∧
     promiseOutcome (react st9 mustacheRender ioEventCtxVal ev1).settles =
       some { kind := SettleKind.resolved, result := execOkResult st9 ev1 }) :=
  ⟨by decide, by rfl,
   react_empty_outputs_submit_empty_batch_successfully st9 mustacheRender ioEventCtxVal ev1
     ["\x7b\x7bnope\x7d\x7d"] (fun _ => Except.ok []) []
     (by rfl) (by decide) (by rfl) (by rfl) (by rfl)⟩

theorem react_logs_def (p : PluginState)
    (mustache : String → CtxVal → Except JsError String)
    (toVal : IoEvent → CtxVal) (ev : IoEvent) :
    (react p mustache toVal ev).logs =
      reactEntryLog p ev ::
      (execPhase p ev
        (genPhase p ev (tmplPhase p ev (fun t => mustache t (reactCtx toVal ev))).1).1).1 := rfl

theorem execPhase_logs_info (p : PluginState) (ev : IoEvent) (cmds : List String) :
    ∀ l ∈ (execPhase p ev cmds).1, l.1 = "info" := by
  unfold execPhase
  cases p.proxy cmds with
  | ok results =>
    intro l hl
    simp at hl
    obtain ⟨r, _, hr⟩ := hl
    simp [hr.symm]
  | error e => intro l hl; simp at hl

/-- A reactor state with no command source reacts by submitting the empty
batch; when the executor accepts it, the single settle is the successful
resolve, and every log line it emits has info severity. -/
theorem react_no_strategies (p : PluginState)
    (mustache : String → CtxVal → Except JsError String)
    (toVal : IoEvent → CtxVal) (ev : IoEvent) (rs : List CmdResult)
    (htm : p.commandTemplates = none) (hgn : p.commandGenerator = none)
    (hx : p.proxy [] = Except.ok rs) :
    (react p mustache toVal ev).submissions = [[]] ∧
    promiseOutcome (react p mustache toVal ev).settles =
      some { kind := SettleKind.resolved, result := execOkResult p ev } ∧
    ∀ l ∈ (react p mustache toVal ev).logs, l.1 = "info" := by
  have htp : tmplPhase p ev (fun t => mustache t (reactCtx toVal ev)) = ([], []) :=
    tmplPhase_none p ev _ htm
  have hgp : genPhase p ev ([] : List String) = ([], []) :=
    genPhase_none p ev [] hgn
  have hexec : (execPhase p ev []).2 =
      { kind := SettleKind.resolved, result := execOkResult p ev } := by
    unfold execPhase
    rw [hx]
  refine ⟨?_, ?_, ?_⟩
  · rw [react_submissions_def, htp, hgp]
  · rw [promiseOutcome, react_settles_def, htp, hgp]
    simp only [List.nil_append]
    rw [hexec]
    rfl
  · rw [react_logs_def, htp, hgp]
    intro l hl
    rcases List.mem_cons.mp hl with h1 | h1
    · simp [h1, reactEntryLog]
    · exact execPhase_logs_info p ev _ l h1

def cfg6 : PluginConfig :=
  { statefulProcessCommandProxy := some { config := none, inst := some okProxy },
    commandGenerator := none,
    commandTemplates := none }

def st6 : PluginState :=
  { pluginId := "p6", reactorId := "r6",
    commandTemplates := none, commandGenerator := none, proxy := okProxy }

/-- C6 counterexample: a configuration with a valid executor instance but
neither command-production strategy is accepted without any error: no
error-callback call and no log at construction, and the resulting reactor
silently submits an empty batch that yields a successful Result with only
info-severity logs — refuting both parts of the claim at this input. -/
theorem ctor_missing_strategies_counterexample :
    (ctorModel "p6" "r6" mkProxy0 cfg6).errorCalls = [] ∧
    (ctorModel "p6" "r6" mkProxy0 cfg6).logs = [] ∧
    (ctorModel "p6" "r6" mkProxy0 cfg6).initCalls = [] ∧
    (ctorModel "p6" "r6" mkProxy0 cfg6).proxy = some okProxy ∧
    (ctorModel "p6" "r6" mkProxy0 cfg6).commandTemplates = none ∧
    (ctorModel "p6" "r6" mkProxy0 cfg6).commandGenerator = none ∧
    (react st6 mustacheRender ioEventCtxVal ev1).submissions = [[]] ∧
    promiseOutcome (react st6 mustacheRender ioEventCtxVal ev1).settles =
      some { kind := SettleKind.resolved, result := execOkResult st6 ev1 } ∧
    (∀ l ∈ (react st6 mustacheRender ioEventCtxVal ev1).logs, l.1 = "info") :=
  ⟨rfl, rfl, rfl, rfl, rfl, rfl, by decide, by decide, by decide⟩

/-- The reactor state observable after construction: identifiers, the two
bound command sources, and the bound executor. -/
def ctorState (pid rid : String) (o : CtorOutcome) (px : Executor) : PluginState :=
  { pluginId := pid, reactorId := rid,
    commandTemplates := o.commandTemplates,
    commandGenerator := o.commandGenerator,
    proxy := px }

/-- C6 (amended): construction with neither commandTemplates nor
commandGenerator (and a valid executor instance) surfaces no
ConfigurationError at all: the error callback is never invoked, nothing is
logged, the initialized callback never fires, and the resulting reactor
state silently submits an empty batch that — when the executor accepts
it — yields a successful Result with only info-severity logs, never a
warning. -/
theorem ctor_missing_strategies_is_silent (pid rid : String)
    (mkProxy : ProxyConfig → Except JsError Executor) (cfg : PluginConfig)
    (i : Executor)
    (hblk : cfg.statefulProcessCommandProxy = some { config := none, inst := some i })
    (hgen : cfg.commandGenerator = none)
    (htmpl : cfg.commandTemplates = none) :
    (ctorModel pid rid mkProxy cfg).errorCalls = [] ∧
    (ctorModel pid rid mkProxy cfg).logs = [] ∧
    (ctorModel pid rid mkProxy cfg).initCalls = [] ∧
    (ctorModel pid rid mkProxy cfg).proxy = some i ∧
    ∀ (mustache : String → CtxVal → Except JsError String)
      (toVal : IoEvent → CtxVal) (ev : IoEvent) (rs : List CmdResult),
      i [] = Except.ok rs →
      (react (ctorState pid rid (ctorModel pid rid mkProxy cfg) i)
          mustache toVal ev).submissions = [[]] ∧
      promiseOutcome (react (ctorState pid rid (ctorModel pid rid mkProxy cfg) i)
          mustache toVal ev).settles =
        some { kind := SettleKind.resolved,
               result := execOkResult
                 (ctorState pid rid (ctorModel pid rid mkProxy cfg) i) ev } ∧
      ∀ l ∈ (react (ctorState pid rid (ctorModel pid rid mkProxy cfg) i)
          mustache toVal ev).logs, l.1 = "info" := by
  have ho : ctorModel pid rid mkProxy cfg = ctorRest pid cfg (some i) [] [] := by
    unfold ctorModel
    rw [hblk]
  refine ⟨?_, ?_, ?_, ?_, ?_⟩
  · rw [ho]; rfl
  · rw [ho]; rfl
  · rw [ho]; simp [ctorRest, htmpl]
  · rw [ho]; rfl
  · intro mustache toVal ev rs hrs
    exact react_no_strategies _ mustache toVal ev rs
      (by simp [ctorState, ho, ctorRest, htmpl])
      (by simp [ctorState, ho, ctorRest, hgen]) hrs

/-- C6 witness: the amended theorem applied at the concrete
no-strategy configuration. -/
theorem ctor_missing_strategies_is_silent_witness :
    cfg6.statefulProcessCommandProxy = some { config := none, inst := some okProxy } ∧
    okProxy [] = Except.ok [] ∧
    ((ctorModel "p6" "r6" mkProxy0 cfg6).errorCalls = [] ∧
     (ctorModel "p6" "r6" mkProxy0 cfg6).logs = [] ∧
     (ctorModel "p6" "r6" mkProxy0 cfg6).initCalls = [] ∧
     (ctorModel "p6" "r6" mkProxy0 cfg6).proxy = some okProxy) :=
  ⟨rfl, rfl,
   by
    have h := ctor_missing_strategies_is_silent "p6" "r6" mkProxy0 cfg6 okProxy rfl rfl rfl
    exact ⟨h.1, h.2.1, h.2.2.1, h.2.2.2.1⟩⟩

def cfg7 : PluginConfig :=
  { statefulProcessCommandProxy := some { config := none, inst := some okProxy },
    commandGenerator := some (fun _ => Except.ok ["echo gen"]),
    commandTemplates := none }

def cfg7t : PluginConfig :=
  { statefulProcessCommandProxy := some { config := none, inst := some okProxy },
    commandGenerator := some (fun _ => Except.ok ["echo gen"]),
    commandTemplates := some ["echo t"] }

/-- C7 (code bug, evaluated at the failing input): a generator-only
configuration is accepted without any error, yet the initialized callback
is never invoked — its invocation sits inside the commandTemplates branch
of the constructor — while the same configuration with a template list does
invoke it exactly once with the pluginId. -/
theorem ctor_generator_only_never_signals_initialized :
    (ctorModel "p7" "r7" mkProxy0 cfg7).initCalls = [] ∧
    (ctorModel "p7" "r7" mkProxy0 cfg7).errorCalls = [] ∧
    (ctorModel "p7" "r7" mkProxy0 cfg7).threw = none ∧
    (ctorModel "p7" "r7" mkProxy0 cfg7t).initCalls = ["p7"] :=
  ⟨rfl, rfl, rfl, rfl⟩

/-- C8: construction never lets an error escape to the owner: the outcome
always records no escaped throw; when the proxy block carries a config and
the external constructor succeeds, the newly built executor is bound; when
it carries an existing instance, that very instance is bound; when it
carries neither, the failure is reported exactly once through the log
function and once through the error callback, and the constructor still
returns normally with no executor bound. -/
theorem ctor_never_throws_and_binds_executor (pid rid : String)
    (mkProxy : ProxyConfig → Except JsError Executor) (cfg : PluginConfig) :
    (ctorModel pid rid mkProxy cfg).threw = none ∧
    (∀ blk pc px, cfg.statefulProcessCommandProxy = some blk →
       blk.config = some pc → mkProxy pc = Except.ok px →
       (ctorModel pid rid mkProxy cfg).proxy = some px) ∧
    (∀ blk i, cfg.statefulProcessCommandProxy = some blk →
       blk.config = none → blk.inst = some i →
       (ctorModel pid rid mkProxy cfg).proxy = some i) ∧
    (∀ blk, cfg.statefulProcessCommandProxy = some blk →
       blk.config = none → blk.inst = none →
       (ctorModel pid rid mkProxy cfg).proxy = none ∧
       (ctorModel pid rid mkProxy cfg).logs =
         [("error", unexpectedErrMsg pid rid spcpMissingErr)] ∧
       (ctorModel pid rid mkProxy cfg).errorCalls =
         [(unexpectedErrMsg pid rid spcpMissingErr, spcpMissingErr)]) := by
  refine ⟨?_, ?_, ?_, ?_⟩
  · cases hc : cfg.statefulProcessCommandProxy with
    | none => simp [ctorModel, hc, ctorCaught]
    | some blk =>
      cases hcfg : blk.config with
      | some pc =>
        cases hmk : mkProxy pc with
        | ok px => simp [ctorModel, hc, hcfg, hmk, ctorRest]
        | error e => simp [ctorModel, hc, hcfg, hmk, ctorRest]
      | none =>
        cases hinst : blk.inst with
        | some i => simp [ctorModel, hc, hcfg, hinst, ctorRest]
        | none => simp [ctorModel, hc, hcfg, hinst, ctorCaught]
  · intro blk pc px hc hcfg hmk
    simp [ctorModel, hc, hcfg, hmk, ctorRest]
  · intro blk i hc hcfg hinst
    simp [ctorModel, hc, hcfg, hinst, ctorRest]
  · intro blk hc hcfg hinst
    refine ⟨?_, ?_, ?_⟩ <;> simp [ctorModel, hc, hcfg, hinst, ctorCaught]

def cfgW1 : PluginConfig :=
  { statefulProcessCommandProxy := some { config := some "proxy-cfg", inst := none },
    commandGenerator := none, commandTemplates := some ["echo w"] }

def cfgW2 : PluginConfig :=
  { statefulProcessCommandProxy := some { config := none, inst := some okProxy },
    commandGenerator := none, commandTemplates := some ["echo w"] }

def cfgW3 : PluginConfig :=
  { statefulProcessCommandProxy := some { config := none, inst := none },
    commandGenerator := none, commandTemplates := some ["echo w"] }

/-- C8 witness: the theorem applied at three concrete configurations, one
per proxy-block shape. -/
theorem ctor_never_throws_and_binds_executor_witness :
    (ctorModel "pw" "rw" mkProxy0 cfgW1).proxy = some okProxy ∧
    (ctorModel "pw" "rw" mkProxy0 cfgW2).proxy = some okProxy ∧
    (ctorModel "pw" "rw" mkProxy0 cfgW3).proxy = none ∧
    (ctorModel "pw" "rw" mkProxy0 cfgW3).errorCalls =
      [(unexpectedErrMsg "pw" "rw" spcpMissingErr, spcpMissingErr)] ∧
    (ctorModel "pw" "rw" mkProxy0 cfgW3).threw = none := by
  have h1 := ctor_never_throws_and_binds_executor "pw" "rw" mkProxy0 cfgW1
  have h2 := ctor_never_throws_and_binds_executor "pw" "rw" mkProxy0 cfgW2
  have h3 := ctor_never_throws_and_binds_executor "pw" "rw" mkProxy0 cfgW3
  exact ⟨h1.2.1 _ "proxy-cfg" okProxy rfl rfl rfl,
         h2.2.2.1 _ okProxy rfl rfl rfl,
         (h3.2.2.2 _ rfl rfl rfl).1,
         (h3.2.2.2 _ rfl rfl rfl).2.2,
         h3.1⟩

